import Mathlib

/-!
Verification of the deckd daemon core against its specification.

The definitions below are a shallow embedding of the Rust sources:
`src/page/mod.rs` (PageManager), `src/config/schema.rs` (configuration
data model), `src/daemon.rs` (`handle_event`, the authoritative event
loop body), `src/device/input.rs` (`read_input_loop`),
`src/config/watcher.rs` (`watch_config` reload step),
`src/render/mod.rs` (`render_button` color selection) and
`src/render/canvas.rs` (`parse_hex_color`, with Rust byte-slicing
semantics made explicit).

Rust `HashMap<String, _>` values are modelled as association lists with
first-match lookup and overwriting insertion; `Vec` as `List` with push
at the end; fallible functions return `Except`/`Option`; a Rust `&str`
whose byte-level slicing matters is modelled as `List Char` together
with UTF-8 byte sizes.
-/

namespace Deckd

/-- Central error type (`src/error.rs`), restricted to the variants the
claims exercise; payload paths and wrapped errors are carried as strings. -/
inductive DeckError where
  | Config (msg : String)
  | ConfigNotFound (path : String)
  | TomlParse (msg : String)
  | Io (msg : String)
  | Render (msg : String)
  | Action (msg : String)
  | Http (msg : String)
  | Hid (msg : String)
deriving DecidableEq, Repr

/-- Association-list lookup, modelling `HashMap::get` (first match). -/
def getMap (m : List (String × String)) (k : String) : Option String :=
  (m.find? (fun p => p.1 == k)).map (fun p => p.2)

/-- Association-list insertion, modelling `HashMap::insert` (overwrite). -/
def insertMap (m : List (String × String)) (k v : String) : List (String × String) :=
  (k, v) :: m.filter (fun p => p.1 != k)

/-! ## Configuration data model (`src/config/schema.rs`)

`ButtonConfig` in the provided `schema.rs` snapshot lists the fields
`key`, `label`, `icon`, `background`, `text_color`, `font_size`,
`on_press`; the fields `state_entity`, `on_background`, `on_text_color`
and `font` (and `ButtonDefaults.font`) are not declared there but their
types are pinned by their use sites in `src/daemon.rs` and
`src/render/mod.rs` (all `Option<String>` resp. `String`). -/

/-- An action to execute (`ActionConfig` in `schema.rs`). HTTP header maps
and bodies are carried opaquely; they do not influence any claim. -/
inductive ActionConfig where
  | Http (method url : String) (headers : List (String × String)) (body : Option String)
  | Shell (command : String)
  | Navigate (page : String)
  | Back
  | Home
deriving DecidableEq, Repr

/-- Default styling applied to all buttons unless overridden. -/
structure ButtonDefaults where
  background : String
  text_color : String
  font_size : Nat
  font : String
deriving DecidableEq, Repr

/-- A single button definition. -/
structure ButtonConfig where
  key : Nat
  label : Option String
  icon : Option String
  background : Option String
  text_color : Option String
  font_size : Option Nat
  on_press : Option ActionConfig
  state_entity : Option String
  on_background : Option String
  on_text_color : Option String
  font : Option String
deriving DecidableEq, Repr

/-- A page of buttons. -/
structure PageConfig where
  name : String
  buttons : List ButtonConfig
deriving DecidableEq, Repr

/-- Global daemon settings. -/
structure DeckdConfig where
  brightness : Nat
  reconnect_interval_ms : Nat
  home_page : String
  defaults : ButtonDefaults
deriving DecidableEq, Repr

/-- Root configuration. `pages` models `HashMap<String, PageConfig>`. -/
structure AppConfig where
  deckd : DeckdConfig
  pages : List (String × PageConfig)
deriving DecidableEq, Repr

/-- Rust `pages.get(id)` on the page map (first match). -/
def AppConfig.getPage (c : AppConfig) (id : String) : Option PageConfig :=
  (c.pages.find? (fun p => p.1 == id)).map (fun p => p.2)

/-- Rust `pages.contains_key(id)` on the page map. -/
def AppConfig.containsPage (c : AppConfig) (id : String) : Bool :=
  (c.pages.find? (fun p => p.1 == id)).isSome

/-! ## Page navigator (`src/page/mod.rs`) -/

/-- Manages the page stack and provides button lookups. The last element
of `stack` is the current page, as in the Rust `Vec<String>`. -/
structure PageManager where
  stack : List String
  home_page : String
deriving DecidableEq, Repr

namespace PageManager

/-- Rust `PageManager::new`: a fresh manager with a single home entry. -/
def new (home : String) : PageManager :=
  { stack := [home], home_page := home }

/-- Rust `PageManager::current_page`: top of the stack, home if empty. -/
def current_page (pm : PageManager) : String :=
  (pm.stack.getLast?).getD pm.home_page

/-- Rust `PageManager::navigate_to`: unconditionally push onto the stack. -/
def navigate_to (pm : PageManager) (page_id : String) : PageManager :=
  { pm with stack := pm.stack ++ [page_id] }

/-- Rust `PageManager::go_back`: pop one page if more than one remains;
return the new manager and whether a pop occurred. -/
def go_back (pm : PageManager) : PageManager × Bool :=
  if 1 < pm.stack.length then
    ({ pm with stack := pm.stack.dropLast }, true)
  else
    (pm, false)

/-- Rust `PageManager::go_home`: reset the stack to a single home entry. -/
def go_home (pm : PageManager) : PageManager :=
  { pm with stack := [pm.home_page] }

/-- Rust `PageManager::set_home_page`: update the home pointer in place. -/
def set_home_page (pm : PageManager) (home : String) : PageManager :=
  { pm with home_page := home }

/-- Rust `PageManager::current_page_config`: look up the current page. -/
def current_page_config (pm : PageManager) (config : AppConfig) : Option PageConfig :=
  config.getPage pm.current_page

/-- Rust `PageManager::button_for_key`: first button on the current page
with the given key index. -/
def button_for_key (pm : PageManager) (config : AppConfig) (key : Nat) : Option ButtonConfig :=
  (pm.current_page_config config).bind (fun p => p.buttons.find? (fun b => b.key == key))

end PageManager

/-- A sequence of `navigate_to` calls, one per id in order. -/
def navSeq (pm : PageManager) (ids : List String) : PageManager :=
  ids.foldl PageManager.navigate_to pm

/-- A sequence of `n` `go_back` calls, discarding the booleans. -/
def backSeq (pm : PageManager) : Nat → PageManager
  | 0 => pm
  | n + 1 => backSeq (pm.go_back).1 n

/-! ## Events (`src/event.rs`) -/

/-- Events flowing through the broadcast channel (`DeckEvent`). A
`ConfigReloaded` carries the new snapshot by value (the `Arc` is only
sharing). -/
inductive DeckEvent where
  | ButtonDown (key : Nat)
  | ButtonUp (key : Nat)
  | DeviceConnected
  | DeviceDisconnected
  | ConfigReloaded (config : AppConfig)
  | NavigateTo (page_id : String)
  | NavigateBack
  | NavigateHome
  | RenderAll
  | RenderButton (key : Nat)
  | Shutdown
deriving DecidableEq, Repr

/-! ## Event loop body (`src/daemon.rs`, `handle_event`)

The mutable state owned by the loop is the shared config snapshot, the
page manager and the `last_states` entity cache. Side effects captured
by the embedding: events sent on `tx` during the handling (`published`),
single-key render tasks spawned with an explicitly supplied state map
(`spawned_renders`, the optimistic render of the `ButtonDown` arm), and
the shutdown request. Fire-and-forget tasks whose effect is pure I/O
(brightness, full-page renders, action execution) are not represented:
they neither read nor write the loop state. -/

/-- The state mutated by the authoritative event loop. -/
structure DaemonState where
  config : AppConfig
  pm : PageManager
  last_states : List (String × String)
deriving DecidableEq, Repr

/-- Result of handling one event. -/
structure HandleResult where
  state : DaemonState
  published : List DeckEvent
  spawned_renders : List (Nat × List (String × String))
  shutdown : Bool
deriving DecidableEq, Repr

/-- The function `handle_event` in `src/daemon.rs`, branch for branch. -/
def handle_event (event : DeckEvent) (s : DaemonState) : HandleResult :=
  match event with
  | .ButtonDown key =>
    match s.pm.button_for_key s.config key with
    | some button =>
      match button.state_entity with
      | some entity_id =>
        -- Optimistic render: immediately flip the cached visual state.
        let current := getMap s.last_states entity_id
        let flipped := match current with
          | some "on" => "off"
          | _ => "on"
        let cache := insertMap s.last_states entity_id flipped
        { state := { s with last_states := cache }
          published := []
          spawned_renders := [(key, cache)]
          shutdown := false }
      | none =>
        { state := s, published := [], spawned_renders := [], shutdown := false }
    | none =>
      { state := s, published := [], spawned_renders := [], shutdown := false }
  | .ButtonUp _ =>
    { state := s, published := [], spawned_renders := [], shutdown := false }
  | .DeviceConnected =>
    { state := s, published := [.RenderAll], spawned_renders := [], shutdown := false }
  | .DeviceDisconnected =>
    { state := s, published := [], spawned_renders := [], shutdown := false }
  | .ConfigReloaded new_config =>
    let s1 : DaemonState := { s with config := new_config }
    let pm1 := s1.pm.set_home_page s1.config.deckd.home_page
    let pm2 := if s1.config.containsPage pm1.current_page then pm1 else pm1.go_home
    { state := { s1 with pm := pm2 }
      published := [.RenderAll]
      spawned_renders := []
      shutdown := false }
  | .NavigateTo page_id =>
    if s.config.containsPage page_id then
      { state := { s with pm := s.pm.navigate_to page_id }
        published := [.RenderAll]
        spawned_renders := []
        shutdown := false }
    else
      { state := s, published := [], spawned_renders := [], shutdown := false }
  | .NavigateBack =>
    let r := s.pm.go_back
    { state := { s with pm := r.1 }
      published := if r.2 then [.RenderAll] else []
      spawned_renders := []
      shutdown := false }
  | .NavigateHome =>
    { state := { s with pm := s.pm.go_home }
      published := [.RenderAll]
      spawned_renders := []
      shutdown := false }
  | .RenderAll =>
    { state := s, published := [], spawned_renders := [], shutdown := false }
  | .RenderButton _ =>
    { state := s, published := [], spawned_renders := [], shutdown := false }
  | .Shutdown =>
    { state := s, published := [], spawned_renders := [], shutdown := true }

/-- Fold `handle_event` over a list of events, keeping only the state. -/
def process_events (s : DaemonState) (evs : List DeckEvent) : DaemonState :=
  evs.foldl (fun st e => (handle_event e st).state) s

/-! ## Renderer color selection (`src/render/mod.rs`, `render_button`) -/

/-- The local `entity_on` in `render_button`: the bound entity resolves to the
state string `"on"` in the supplied state map. -/
def entity_on (button : ButtonConfig) (entity_states : List (String × String)) : Bool :=
  match button.state_entity with
  | some eid =>
    match getMap entity_states eid with
    | some st => st == "on"
    | none => false
  | none => false

/-- The background chosen by `render_button` (`bg` local). -/
def render_background (button : ButtonConfig) (defaults : ButtonDefaults)
    (entity_states : List (String × String)) : String :=
  if entity_on button entity_states then
    (button.on_background.or button.background).getD defaults.background
  else
    button.background.getD defaults.background

/-- The text color chosen by `render_button` (`text_color` local). -/
def render_text_color (button : ButtonConfig) (defaults : ButtonDefaults)
    (entity_states : List (String × String)) : String :=
  if entity_on button entity_states then
    (button.on_text_color.or button.text_color).getD defaults.text_color
  else
    button.text_color.getD defaults.text_color

/-- The three-level fallback of the spec, in the words of the spec: the
on-state override if the entity is on and the override exists; else the
own value of the button if present; else the value from the style
defaults. -/
def spec_color_fallback (on_override own : Option String) (deflt : String)
    (eon : Bool) : String :=
  match eon, on_override with
  | true, some c => c
  | _, _ =>
    match own with
    | some c => c
    | none => deflt

/-! ## Device input loop (`src/device/input.rs`, `read_input_loop`) -/

/-- Decoded input returned by one `read_input` poll; encoder and
touchscreen variants are collapsed into `OtherInput` (ignored for MK.2). -/
inductive StreamDeckInput where
  | ButtonStateChange (buttons : List Bool)
  | NoData
  | OtherInput
deriving DecidableEq, Repr

/-- The events published for one decoded input: one event per key of a
`ButtonStateChange` vector, down for `true`, up for `false`. -/
def events_for_input : StreamDeckInput → List DeckEvent
  | .ButtonStateChange buttons =>
    buttons.enum.map (fun p =>
      if p.2 then DeckEvent.ButtonDown p.1 else DeckEvent.ButtonUp p.1)
  | .NoData => []
  | .OtherInput => []

/-- The loop `read_input_loop` over a finite trace of read results: publish the
events of each successful poll in order, stop with the error of the
first failing read; an exhausted trace models cancellation. -/
def read_input_loop : List (Except String StreamDeckInput) → List DeckEvent × Except String Unit
  | [] => ([], Except.ok ())
  | Except.error e :: _ => ([], Except.error e)
  | Except.ok input :: rest =>
    let r := read_input_loop rest
    (events_for_input input ++ r.1, r.2)

/-- Modelled from the spec: "for each key whose pressed state differs
from its decoded value, publish button-down or button-up" — publication
filtered by a diff against a tracked pressed-state vector. Stated for
comparison with `events_for_input`, which is what the code does. -/
def spec_diff_events (tracked buttons : List Bool) : List DeckEvent :=
  buttons.enum.filterMap (fun p =>
    if tracked.getD p.1 false != p.2 then
      some (if p.2 then DeckEvent.ButtonDown p.1 else DeckEvent.ButtonUp p.1)
    else none)

/-! ## Config watcher reload step (`src/config/watcher.rs`) -/

/-- One iteration of `watch_config` after a debounced change
notification, as a function of the result of `config::load`: on success
publish exactly one `ConfigReloaded` carrying the whole new snapshot; on
failure publish nothing (the failure is only logged). -/
def watch_step (load_result : Except DeckError AppConfig) : List DeckEvent :=
  match load_result with
  | .ok new_config => [.ConfigReloaded new_config]
  | .error _ => []

/-! ## HTTP action (`src/action/http.rs`, `execute`) -/

/-- Rust `str::to_uppercase` (ASCII-relevant part; the special multi-char
expansions do not arise for method names). -/
def to_uppercase (s : String) : String :=
  ⟨s.data.map Char.toUpper⟩

/-- The transport-level outcome of `builder.send()`: any HTTP response
(with its status code), or a transport failure. -/
inductive HttpSendResult where
  | response (status : Nat)
  | transport_error (msg : String)
deriving DecidableEq, Repr

/-- Rust `StatusCode::is_success`: 2xx. -/
def is_success (status : Nat) : Bool :=
  200 ≤ status && status < 300

/-- Rust `http::execute` as a function of the method string and the send
outcome. Headers, url and body only shape the request, not the result.
On a response, `is_success` selects only the log level (debug vs warn);
both branches return `Ok(())`. -/
def http_execute (method : String) (send_result : HttpSendResult) : Except DeckError Unit :=
  let m := to_uppercase method
  if m == "GET" || m == "POST" || m == "PUT" || m == "DELETE" || m == "PATCH" then
    match send_result with
    | .transport_error e => Except.error (DeckError.Http e)
    | .response status =>
      if is_success status then Except.ok () else Except.ok ()
  else
    Except.error (DeckError.Action ("unsupported HTTP method: " ++ m))

/-! ## Hex color parsing (`src/render/canvas.rs`, `parse_hex_color`)

A Rust `&str` is a UTF-8 byte sequence; `&s[a..b]` slices by *byte*
index and panics when an index does not fall on a character boundary.
The input is therefore modelled as `List Char` with explicit UTF-8 byte
sizes, and slicing returns `none` exactly when Rust would panic. -/

/-- Rust `str::len`: number of UTF-8 bytes. -/
def byteLen (s : List Char) : Nat :=
  (s.map Char.utf8Size).sum

/-- Drop `i` bytes from the front: the remaining suffix when `i` lands
on a character boundary within the string, `none` otherwise. -/
def byteDrop : List Char → Nat → Option (List Char)
  | s, 0 => some s
  | [], _ + 1 => none
  | c :: rest, i + 1 =>
    if c.utf8Size ≤ i + 1 then byteDrop rest (i + 1 - c.utf8Size) else none

/-- Take `i` bytes from the front: the prefix when `i` lands on a
character boundary within the string, `none` otherwise. -/
def byteTake : List Char → Nat → Option (List Char)
  | _, 0 => some []
  | [], _ + 1 => none
  | c :: rest, i + 1 =>
    if c.utf8Size ≤ i + 1 then (byteTake rest (i + 1 - c.utf8Size)).map (c :: ·) else none

/-- Rust `&s[a..b]` for `a ≤ b`: `none` models the Rust slice panic. -/
def byteSlice (s : List Char) (a b : Nat) : Option (List Char) :=
  (byteDrop s a).bind (fun t => byteTake t (b - a))

/-- Value of one hexadecimal digit (code points 0-9, a-f, A-F). -/
def hexDigitVal (c : Char) : Option Nat :=
  let n := c.toNat
  if 48 ≤ n ∧ n ≤ 57 then some (n - 48)
  else if 97 ≤ n ∧ n ≤ 102 then some (n - 87)
  else if 65 ≤ n ∧ n ≤ 70 then some (n - 55)
  else none

/-- Digit-by-digit accumulation with the `u8` overflow check. -/
def parseHexNat : List Char → Nat → Option Nat
  | [], acc => some acc
  | c :: rest, acc =>
    match hexDigitVal c with
    | some d => if acc * 16 + d ≤ 255 then parseHexNat rest (acc * 16 + d) else none
    | none => none

/-- Rust `u8::from_str_radix(s, 16)`: optional leading `+`, then at least one
hex digit, value within `u8` range. -/
def from_str_radix_u8_hex (s : List Char) : Option Nat :=
  let t := match s with
    | '+' :: rest => rest
    | _ => s
  match t with
  | [] => none
  | _ => parseHexNat t 0

/-- Outcome of a Rust function that can return, error, or panic. -/
inductive RustResult (α : Type) where
  | ok (val : α)
  | err (e : DeckError)
  | panicked (msg : String)
deriving DecidableEq, Repr

/-- The parser `parse_hex_color`: strip leading `#`, then by byte length either the
3-digit form (each digit doubled) or the 6-digit form; any other length
is a typed error. The byte slices are taken in source order, so a
slice that falls inside a multi-byte character panics before later
slices are attempted. -/
def parse_hex_color (input : List Char) : RustResult (Nat × Nat × Nat) :=
  let hex := input.dropWhile (fun c => c == '#')
  let perr : DeckError := DeckError.Render (String.mk ("invalid hex color: #".toList ++ hex))
  let boundary := "byte index is not a char boundary"
  match byteLen hex with
  | 3 =>
    match byteSlice hex 0 1 with
    | none => .panicked boundary
    | some s0 =>
      match from_str_radix_u8_hex (s0 ++ s0) with
      | none => .err perr
      | some r =>
        match byteSlice hex 1 2 with
        | none => .panicked boundary
        | some s1 =>
          match from_str_radix_u8_hex (s1 ++ s1) with
          | none => .err perr
          | some g =>
            match byteSlice hex 2 3 with
            | none => .panicked boundary
            | some s2 =>
              match from_str_radix_u8_hex (s2 ++ s2) with
              | none => .err perr
              | some b => .ok (r, g, b)
  | 6 =>
    match byteSlice hex 0 2 with
    | none => .panicked boundary
    | some s0 =>
      match from_str_radix_u8_hex s0 with
      | none => .err perr
      | some r =>
        match byteSlice hex 2 4 with
        | none => .panicked boundary
        | some s1 =>
          match from_str_radix_u8_hex s1 with
          | none => .err perr
          | some g =>
            match byteSlice hex 4 6 with
            | none => .panicked boundary
            | some s2 =>
              match from_str_radix_u8_hex s2 with
              | none => .err perr
              | some b => .ok (r, g, b)
  | _ => .err perr

/-! ## Sample data for witnesses -/

/-- Concrete style defaults (the serde defaults of the schema). -/
def sampleDefaults : ButtonDefaults :=
  { background := "#1a1a2e", text_color := "#e0e0e0", font_size := 14, font := "default" }

/-- A concrete entity-bound button at key 0. -/
def sampleButton : ButtonConfig :=
  { key := 0, label := some "Light", icon := none, background := none,
    text_color := none, font_size := none, on_press := none,
    state_entity := some "light.kitchen", on_background := some "#ffd700",
    on_text_color := none, font := none }

/-- A concrete configuration with one home page holding `sampleButton`. -/
def sampleConfig : AppConfig :=
  { deckd := { brightness := 80, reconnect_interval_ms := 2000,
               home_page := "home", defaults := sampleDefaults }
    pages := [("home", { name := "Home", buttons := [sampleButton] })] }

/-- A concrete daemon state sitting on the home page with an empty cache. -/
def sampleState : DaemonState :=
  { config := sampleConfig, pm := PageManager.new "home", last_states := [] }

/-! ## Helper lemmas -/

/-- Lookup of a freshly inserted key. -/
theorem getMap_insertMap_self (m : List (String × String)) (k v : String) :
    getMap (insertMap m k v) k = some v := by
  simp [getMap, insertMap]

/-- The optimistic flip of the `ButtonDown` arm via an `if` on the
cached value. -/
theorem flip_match_eq (current : Option String) :
    (match current with
      | some "on" => "off"
      | _ => "on")
      = if current = some "on" then "off" else "on" := by
  split <;> simp_all

/-- Applying `set_home_page` does not move the current page of a manager with a
nonempty stack. -/
theorem current_page_set_home (pm : PageManager) (h : String) (hne : pm.stack ≠ []) :
    (pm.set_home_page h).current_page = pm.current_page := by
  have hs : pm.stack.getLast?.isSome := List.getLast?_isSome.mpr hne
  obtain ⟨x, hx⟩ := Option.isSome_iff_exists.mp hs
  simp [PageManager.set_home_page, PageManager.current_page, hx]

/-- Stack height after a run of `navigate_to` calls. -/
theorem navSeq_length (pm : PageManager) (ids : List String) :
    (navSeq pm ids).stack.length = pm.stack.length + ids.length := by
  induction ids generalizing pm with
  | nil => rfl
  | cons a l ih =>
    have : navSeq pm (a :: l) = navSeq (pm.navigate_to a) l := rfl
    rw [this, ih]
    simp [PageManager.navigate_to]
    omega

/-- Stack height after `n` `go_back` calls, while the stack stays tall
enough for every pop to succeed. -/
theorem backSeq_length (n : Nat) (pm : PageManager) (h : n < pm.stack.length) :
    (backSeq pm n).stack.length = pm.stack.length - n := by
  induction n generalizing pm with
  | zero => rfl
  | succ k ih =>
    have h1 : 1 < pm.stack.length := by omega
    have hgb : (pm.go_back).1 = { pm with stack := pm.stack.dropLast } := by
      simp [PageManager.go_back, h1]
    have hlen : pm.stack.dropLast.length = pm.stack.length - 1 :=
      List.length_dropLast _
    have hk : k < ({ pm with stack := pm.stack.dropLast } : PageManager).stack.length := by
      simpa [hlen] using by omega
    calc (backSeq pm (k + 1)).stack.length
        = (backSeq { pm with stack := pm.stack.dropLast } k).stack.length := by
          rw [show backSeq pm (k + 1) = backSeq (pm.go_back).1 k from rfl, hgb]
      _ = pm.stack.length - (k + 1) := by rw [ih _ hk]; simp [hlen]; omega

/-! ## Claims -/

/-- C1: counterexample. On the stack `["h", "b", "b"]` (reached by two
`navigate_to "b"` calls), the stack has more than one element, the
popped id `"b"` equals the id below it, yet `go_back` returns `true` —
the claim demands `false` there, and indeed the current page does not
change. -/
theorem C1_counterexample :
    1 < (((PageManager.new "h").navigate_to "b").navigate_to "b").stack.length
  ∧ (((PageManager.new "h").navigate_to "b").navigate_to "b").stack.getLast? = some "b"
  ∧ (((PageManager.new "h").navigate_to "b").navigate_to "b").stack.dropLast.getLast?
      = some "b"
  ∧ ((((PageManager.new "h").navigate_to "b").navigate_to "b").go_back).2 = true
  ∧ ((((PageManager.new "h").navigate_to "b").navigate_to "b").go_back).1.current_page
      = (((PageManager.new "h").navigate_to "b").navigate_to "b").current_page := by
  decide

/-- C1 (amended): `go_back` pops the top of the stack unless only one
element remains, and its boolean return value is true exactly when an
element was actually popped — equivalently, exactly when the stack
changed — which can hold even when the current page id is unchanged
(consecutive duplicate ids). -/
theorem C1_go_back_amended (pm : PageManager) :
    ((pm.go_back).2 = true ↔ 1 < pm.stack.length)
  ∧ ((pm.go_back).2 = true ↔ (pm.go_back).1.stack ≠ pm.stack)
  ∧ ((pm.go_back).2 = false ↔ (pm.go_back).1 = pm)
  ∧ ((pm.go_back).2 = true → (pm.go_back).1.stack = pm.stack.dropLast) := by
  by_cases h : 1 < pm.stack.length
  · have hlen : pm.stack.dropLast.length = pm.stack.length - 1 :=
      List.length_dropLast _
    have hne : pm.stack.dropLast ≠ pm.stack := by
      intro hEq
      have := congrArg List.length hEq
      omega
    refine ⟨?_, ?_, ?_, ?_⟩ <;> simp [PageManager.go_back, h]
    · exact hne
    · intro hEq
      exact hne (congrArg PageManager.stack hEq)
  · refine ⟨?_, ?_, ?_, ?_⟩ <;> simp [PageManager.go_back, h]

/-- C7: any sequence of `navigate_to` calls followed by an equal number
of `go_back` calls restores the stack height (given the invariant that
the stack is nonempty), and `go_back` on a single-element stack leaves
the manager unchanged and returns `false`. -/
theorem C7_nav_back_height (pm : PageManager) (ids : List String)
    (h : 1 ≤ pm.stack.length) :
    (backSeq (navSeq pm ids) ids.length).stack.length = pm.stack.length
  ∧ (pm.stack.length = 1 → pm.go_back = (pm, false)) := by
  constructor
  · have h1 := navSeq_length pm ids
    have h2 : ids.length < (navSeq pm ids).stack.length := by omega
    rw [backSeq_length _ _ h2, h1]
    omega
  · intro h1
    simp [PageManager.go_back, h1]

/-- C7 witness: two pushes then two pops on a fresh home-only manager. -/
theorem C7_witness :
    1 ≤ (PageManager.new "home").stack.length
  ∧ ((backSeq (navSeq (PageManager.new "home") ["a", "b"])
        (["a", "b"] : List String).length).stack.length
        = (PageManager.new "home").stack.length
     ∧ ((PageManager.new "home").stack.length = 1 →
          (PageManager.new "home").go_back = (PageManager.new "home", false))) :=
  ⟨by decide, C7_nav_back_height (PageManager.new "home") ["a", "b"] (by decide)⟩

/-- C2: a `ButtonDown` on a key whose resolved button is bound to an
external entity writes the predicted state into the cache before the
action runs — flipped to `"off"` exactly when the prior cached value was
`"on"`, and to `"on"` in every other case (in particular `"on"` when no
prior value exists) — and a single-key render carrying exactly this
updated state map is spawned immediately. -/
theorem C2_optimistic_flip (s : DaemonState) (key : Nat) (button : ButtonConfig)
    (entity_id : String)
    (hb : s.pm.button_for_key s.config key = some button)
    (he : button.state_entity = some entity_id) :
    getMap (handle_event (.ButtonDown key) s).state.last_states entity_id
      = some (if getMap s.last_states entity_id = some "on" then "off" else "on")
  ∧ (getMap s.last_states entity_id = none →
      getMap (handle_event (.ButtonDown key) s).state.last_states entity_id = some "on")
  ∧ (handle_event (.ButtonDown key) s).spawned_renders
      = [(key, (handle_event (.ButtonDown key) s).state.last_states)] := by
  have hmain :
      getMap (handle_event (.ButtonDown key) s).state.last_states entity_id
        = some (if getMap s.last_states entity_id = some "on" then "off" else "on") := by
    simp only [handle_event, hb, he, flip_match_eq, getMap_insertMap_self]
  refine ⟨hmain, ?_, ?_⟩
  · intro hnone
    rw [hmain, hnone]
    simp
  · simp only [handle_event, hb, he]

/-- C2 witness: pressing key 0 of `sampleState` (entity-bound button,
empty cache) predicts `"on"` and spawns the matching single-key render. -/
theorem C2_witness :
    sampleState.pm.button_for_key sampleState.config 0 = some sampleButton
  ∧ sampleButton.state_entity = some "light.kitchen"
  ∧ (getMap (handle_event (.ButtonDown 0) sampleState).state.last_states "light.kitchen"
       = some (if getMap sampleState.last_states "light.kitchen" = some "on"
               then "off" else "on")
     ∧ (getMap sampleState.last_states "light.kitchen" = none →
         getMap (handle_event (.ButtonDown 0) sampleState).state.last_states "light.kitchen"
           = some "on")
     ∧ (handle_event (.ButtonDown 0) sampleState).spawned_renders
         = [(0, (handle_event (.ButtonDown 0) sampleState).state.last_states)]) :=
  ⟨by decide, by decide,
    C2_optimistic_flip sampleState 0 sampleButton "light.kitchen" (by decide) (by decide)⟩

/-- C3: handling `ConfigReloaded(new_snapshot)` points the navigator at
the home page of the new snapshot; if the current page id is absent
from the page map of the new snapshot the current page becomes the
(new) home page; and a `RenderAll` is published in every case. -/
theorem C3_config_reloaded (s : DaemonState) (new_config : AppConfig) :
    (handle_event (.ConfigReloaded new_config) s).state.pm.home_page
      = new_config.deckd.home_page
  ∧ (new_config.containsPage s.pm.current_page = false →
      (handle_event (.ConfigReloaded new_config) s).state.pm.current_page
        = new_config.deckd.home_page)
  ∧ (handle_event (.ConfigReloaded new_config) s).published = [DeckEvent.RenderAll]
  ∧ (handle_event (.ConfigReloaded new_config) s).state.config = new_config := by
  simp only [handle_event]
  rcases hstack : s.pm.stack with _ | ⟨a, l⟩
  · -- Empty stack: after `set_home_page` the current page is already the
    -- new home, so both branches of the guard end on the new home.
    by_cases hc2 : new_config.containsPage new_config.deckd.home_page = true <;>
      simp [PageManager.set_home_page, PageManager.current_page, PageManager.go_home,
        hstack, hc2]
  · have hne : s.pm.stack ≠ [] := by rw [hstack]; simp
    have hcur := current_page_set_home s.pm new_config.deckd.home_page hne
    rw [hcur]
    by_cases hc2 : new_config.containsPage s.pm.current_page = true
    · -- Present: the navigator keeps its stack; the claim hypothesis
      -- contradicts the guard.
      rw [if_pos hc2]
      refine ⟨?_, ?_, trivial, trivial⟩
      · simp [PageManager.set_home_page]
      · intro habs
        rw [hc2] at habs
        exact Bool.noConfusion habs
    · -- Absent: forced `go_home` onto the new home page.
      rw [if_neg hc2]
      refine ⟨?_, ?_, trivial, trivial⟩
      · simp [PageManager.go_home, PageManager.set_home_page]
      · intro _
        simp [PageManager.go_home, PageManager.set_home_page, PageManager.current_page]

/-- C9: a `NavigateTo` whose target page id is not in the current
page map of the snapshot leaves the whole daemon state unchanged (in
particular stack and current page) and publishes nothing. -/
theorem C9_navigate_missing (s : DaemonState) (page_id : String)
    (h : s.config.containsPage page_id = false) :
    handle_event (.NavigateTo page_id) s
      = { state := s, published := [], spawned_renders := [], shutdown := false } := by
  simp [handle_event, h]

/-- C9 witness: navigating `sampleState` to the absent page `"nope"`. -/
theorem C9_witness :
    sampleState.config.containsPage "nope" = false
  ∧ handle_event (.NavigateTo "nope") sampleState
      = { state := sampleState, published := [], spawned_renders := [], shutdown := false } :=
  ⟨by decide, C9_navigate_missing sampleState "nope" (by decide)⟩

/-- Both renderer color choices equal the spec-side three-level fallback. -/
theorem render_color_fallback_eq (ov own : Option String) (d : String) (eon : Bool) :
    (if eon then (ov.or own).getD d else own.getD d)
      = spec_color_fallback ov own d eon := by
  cases eon <;> cases ov <;> cases own <;>
    simp [spec_color_fallback, Option.or, Option.getD]

/-- C4: `render_button` chooses the background by the three-level
fallback — on-state override when the bound entity resolves to `"on"`
and the override exists, else the own background of the button, else
the default — and the text color by the same fallback on its own fields,
independently. -/
theorem C4_color_choice (button : ButtonConfig) (defaults : ButtonDefaults)
    (entity_states : List (String × String)) :
    render_background button defaults entity_states
      = spec_color_fallback button.on_background button.background
          defaults.background (entity_on button entity_states)
  ∧ render_text_color button defaults entity_states
      = spec_color_fallback button.on_text_color button.text_color
          defaults.text_color (entity_on button entity_states) :=
  ⟨render_color_fallback_eq _ _ _ _, render_color_fallback_eq _ _ _ _⟩

/-- C5: counterexample. A decoded vector `[false]` for a key whose
tracked pressed state is also `false` (no state change) still makes the
loop publish `ButtonUp 0`, while the diff-filtered publication of the claim
would be empty: the loop publishes one event per key of every vector,
not only state changes. -/
theorem C5_counterexample :
    events_for_input (.ButtonStateChange [false]) = [DeckEvent.ButtonUp 0]
  ∧ spec_diff_events [false] [false] = []
  ∧ events_for_input (.ButtonStateChange [false]) ≠ spec_diff_events [false] [false] := by
  refine ⟨rfl, rfl, ?_⟩
  decide

/-- C5 (amended): for every decoded `ButtonStateChange` vector the loop
publishes exactly one event per key — `ButtonDown` for `true`,
`ButtonUp` for `false` — regardless of any previous state; `NoData` and
other input kinds publish nothing; and the loop publishes the
concatenation of these per-poll events until the trace ends
(cancellation) or a read fails, the first read error stopping it. -/
theorem C5_per_key_events (buttons : List Bool) (inputs : List StreamDeckInput) :
    (events_for_input (.ButtonStateChange buttons)).length = buttons.length
  ∧ (∀ i : Nat,
      (events_for_input (.ButtonStateChange buttons))[i]?
        = buttons[i]?.map (fun pressed =>
            if pressed then DeckEvent.ButtonDown i else DeckEvent.ButtonUp i))
  ∧ events_for_input .NoData = []
  ∧ events_for_input .OtherInput = []
  ∧ read_input_loop (inputs.map Except.ok)
      = ((inputs.map events_for_input).flatten, Except.ok ())
  ∧ (∀ (e : String) (rest : List (Except String StreamDeckInput)),
      read_input_loop (Except.error e :: rest) = ([], Except.error e)) := by
  refine ⟨?_, ?_, rfl, rfl, ?_, fun e rest => rfl⟩
  · simp [events_for_input]
  · intro i
    simp only [events_for_input, List.getElem?_map, List.getElem?_enum]
    cases buttons[i]? <;> simp
  · induction inputs with
    | nil => rfl
    | cons a l ih =>
      simp only [List.map_cons, read_input_loop, ih, List.flatten_cons]

/-- C6: hex color parsing behaves as documented on the good inputs of
the spec and on a malformed 2-digit input, but on an input whose stripped form
is 3 or 6 bytes of multi-byte characters the Rust byte slice
`&hex[0..1]` falls inside a character and panics instead of returning
the typed error — the function is not total. -/
theorem C6_parse_hex_color_cases :
    parse_hex_color "#fff".toList = RustResult.ok (255, 255, 255)
  ∧ parse_hex_color "#1a1a2e".toList = RustResult.ok (26, 26, 46)
  ∧ parse_hex_color "#ff".toList
      = RustResult.err (DeckError.Render "invalid hex color: #ff")
  ∧ parse_hex_color "#zz".toList
      = RustResult.err (DeckError.Render "invalid hex color: #zz")
  ∧ parse_hex_color "#€".toList
      = RustResult.panicked "byte index is not a char boundary" := by
  refine ⟨by decide, by decide, by decide, by decide, by decide⟩

/-- C8: when a config reload attempt fails, the watcher publishes no
event at all — in particular no `ConfigReloaded` — so folding the event
loop over the published events leaves the daemon state (including the
authoritative snapshot) exactly as it was, and nothing crashes. -/
theorem C8_failed_reload_no_effect (s : DaemonState) (e : DeckError) :
    watch_step (.error e) = []
  ∧ process_events s (watch_step (.error e)) = s
  ∧ (∀ c : AppConfig, DeckEvent.ConfigReloaded c ∉ watch_step (.error e)) := by
  refine ⟨rfl, rfl, ?_⟩
  intro c h
  simp [watch_step] at h

/-- Whether the uppercased method is one of the five supported verbs. -/
def methodSupported (method : String) : Bool :=
  let m := to_uppercase method
  m == "GET" || m == "POST" || m == "PUT" || m == "DELETE" || m == "PATCH"

/-- C10: for a supported method, any HTTP response — whatever its status
code — yields `Ok` (the status only selects the log level); an error is
returned exactly for an unsupported method name or a transport-level
failure. -/
theorem C10_http_outcomes (method : String) (status : Nat) (msg : String) :
    http_execute method (.response status)
      = (if methodSupported method then Except.ok ()
         else Except.error
           (DeckError.Action ("unsupported HTTP method: " ++ to_uppercase method)))
  ∧ http_execute method (.transport_error msg)
      = (if methodSupported method then Except.error (DeckError.Http msg)
         else Except.error
           (DeckError.Action ("unsupported HTTP method: " ++ to_uppercase method))) := by
  by_cases h : methodSupported method = true
  · have h2 := h
    simp only [methodSupported] at h2
    constructor <;> simp [http_execute, h, h2]
  · have h2 := h
    simp only [methodSupported] at h2
    constructor <;> simp_all [http_execute]

end Deckd
